import Mathlib

/-!
Shallow embedding of `src/web/app.py` (a thin FastAPI façade over an external
OpenSearch engine) and proofs of the specification claims about it.

Python strings are modelled as Lean `String`; Python `None`-able values as
`Option`; Python truthiness of a string (`if s:`) is `s ≠ ""`, and truthiness
of an `Optional[str]` value `ct` is `ct.getD "" ≠ ""` (both `None` and `""`
are falsy).  The external engine is a parameter (a function from a search
request to a list of hits); engine calls are counted explicitly so that
"no query is sent to the engine" is expressible.
-/

namespace OpensearchApp

/-- Python whitespace characters stripped by `str.strip()` (ASCII subset). -/
def isPyWhitespace (c : Char) : Bool :=
  c = ' ' || c = '\t' || c = '\n' || c = '\r' || c = '\x0b' || c = '\x0c'

/-- Strip leading and trailing whitespace from a character list, as
Python `str.strip()` does. -/
def stripChars (l : List Char) : List Char :=
  ((l.dropWhile isPyWhitespace).reverse.dropWhile isPyWhitespace).reverse

/-- Python `x.strip()` on a string. -/
def pyStrip (s : String) : String :=
  ⟨stripChars s.data⟩

/-- Python `s.split(sep)` for a one-character separator `sep`: split at every
occurrence of `sep`, keeping empty pieces (`"".split(",") == [""]`,
`"a,,b".split(",") == ["a", "", "b"]`). -/
def splitChars (sep : Char) : List Char → List (List Char)
  | [] => [[]]
  | c :: cs =>
    match splitChars sep cs with
    | [] => [[]]
    | cur :: rest => if c = sep then [] :: cur :: rest else (c :: cur) :: rest

/-- Embedding of line 14:
`CONTENT_TYPES = [x.strip() for x in os.getenv("CONTENT_TYPES", ...).split(",") if x.strip()]`,
as a function of the raw environment-variable value. -/
def parseContentTypes (raw : String) : List String :=
  ((splitChars ',' raw.data).map (fun l => (⟨stripChars l⟩ : String))).filter
    (fun s => decide (s ≠ ""))

/-- The default value of the `CONTENT_TYPES` environment variable. -/
def defaultContentTypesRaw : String := "article,news,blog,report"

/-- The allow-list computed from the default environment. -/
def CONTENT_TYPES : List String := parseContentTypes defaultContentTypesRaw

/-- A document as stored in the index (the three mapped source fields). -/
structure Doc where
  title : String
  content : String
  content_type : String
deriving DecidableEq, Repr

/-- A hit source as returned by the engine: each field may be absent. -/
structure HitSource where
  title : Option String
  content : Option String
deriving DecidableEq, Repr

/-- The response item `SearchResponseItem(title=..., snippet=...)`. -/
structure SearchResponseItem where
  title : String
  snippet : String
deriving DecidableEq, Repr

/-- Python `s[:n]`: the first `n` characters of a string. -/
def strTake (s : String) (n : Nat) : String :=
  ⟨s.data.take n⟩

/-- The body of the result-formatting loop of `do_search` (lines 107-113):
`content = src.get("content", "") or ""`, `snippet = content[:50]`,
`SearchResponseItem(title=src.get("title", ""), snippet=snippet)`. -/
def formatHit (src : HitSource) : SearchResponseItem :=
  { title := src.title.getD "", snippet := strTake (src.content.getD "") 50 }

/-- A clause of the boolean engine query built by `do_search`. -/
inductive Clause where
  | multiMatch (query : String) (fields : List String)
  | term (field : String) (value : String)
deriving DecidableEq, Repr

/-- The `query` part of the engine request: either `{"bool": {"must": ...}}`
or `{"match_all": {}}`. -/
inductive EngineQuery where
  | boolMust (must : List Clause)
  | matchAll
deriving DecidableEq, Repr

/-- The clause list of an engine query (`must` for a boolean query,
empty for match-all). -/
def EngineQuery.clauses : EngineQuery → List Clause
  | .boolMust must => must
  | .matchAll => []

/-- The full search request body sent to the engine by `do_search`:
`{"query": query, "_source": ["title", "content"], "size": 25}`. -/
structure SearchRequest where
  query : EngineQuery
  source : List String
  size : Nat
deriving DecidableEq, Repr

/-- `query = {"bool": {"must": must}} if must else {"match_all": {}}`. -/
def mkQuery (must : List Clause) : EngineQuery :=
  if must = [] then .matchAll else .boolMust must

/-- The query-translation part of `do_search` (lines 84-105): `some req` when
a request is sent to the engine, `none` when the invalid-content-type
short-circuit returns `[]` without searching.  `ct.getD "" = ""` captures
Python falsiness of `content_type` (both `None` and `""`). -/
def do_search_request (cts : List String) (q : String) (ct : Option String) :
    Option SearchRequest :=
  let must : List Clause :=
    if q = "" then [] else [Clause.multiMatch q ["title", "content"]]
  let ctv := ct.getD ""
  if ctv = "" then
    some { query := mkQuery must, source := ["title", "content"], size := 25 }
  else if ctv ∈ cts then
    some { query := mkQuery (must ++ [Clause.term "content_type" ctv]),
           source := ["title", "content"], size := 25 }
  else
    none

/-- `do_search(q, content_type)` (lines 84-113), parameterised by the external
engine.  Returns the formatted items together with the number of search
requests actually sent to the engine (0 on the short-circuit, 1 otherwise). -/
def do_search (engine : SearchRequest → List HitSource) (cts : List String)
    (q : String) (ct : Option String) : List SearchResponseItem × Nat :=
  match do_search_request cts q ct with
  | none => ([], 0)
  | some req => ((engine req).map formatHit, 1)

/-- The template context rendered by `home` (lines 118-127). -/
structure HomeContext where
  q : String
  content_types : List String
  selected_type : String
  results : List SearchResponseItem
deriving DecidableEq, Repr

/-- `home(request, q, content_type)` (lines 115-127):
`results = do_search(q, content_type) if (q or content_type) else []`,
`selected_type = content_type or ""`.  Second component: number of search
requests sent to the engine while serving this request. -/
def home (engine : SearchRequest → List HitSource) (cts : List String)
    (q : String) (ct : Option String) : HomeContext × Nat :=
  if q = "" ∧ ct.getD "" = "" then
    ({ q := q, content_types := cts, selected_type := ct.getD "",
       results := [] }, 0)
  else
    let r := do_search engine cts q ct
    ({ q := q, content_types := cts, selected_type := ct.getD "",
       results := r.1 }, r.2)

/-- `api_search(q, content_type)` (lines 129-133): the JSON body is the list
of `{title, snippet}` objects returned by `do_search`. -/
def api_search (engine : SearchRequest → List HitSource) (cts : List String)
    (q : String) (ct : Option String) : List SearchResponseItem :=
  (do_search engine cts q ct).1

/-- A field type in the index mapping: `{"type": "text"}` (full-text) or
`{"type": "keyword"}` (exact match). -/
inductive FieldType where
  | text
  | keyword
deriving DecidableEq, Repr

/-- The configuration an index is created with (lines 41-55): the two index
settings and the field mapping. -/
structure IndexConfig where
  numberOfShards : Nat
  numberOfReplicas : Nat
  mapping : List (String × FieldType)
deriving DecidableEq, Repr

/-- The mapping of the `body` literal in `ensure_index` (lines 48-54). -/
def fixedMapping : List (String × FieldType) :=
  [("title", FieldType.text), ("content", FieldType.text),
   ("content_type", FieldType.keyword)]

/-- The state of the external engine visible to the bootstrap code: whether
the index exists (and with which configuration), its documents keyed by the
integer id assigned at indexing time, and how many refresh calls have been
issued against it. -/
structure EngineState where
  index : Option IndexConfig
  docs : List (Nat × Doc)
  refreshes : Nat
deriving DecidableEq, Repr

/-- The engine state before anything was created. -/
def initialState : EngineState :=
  { index := none, docs := [], refreshes := 0 }

/-- `ensure_index()` (lines 38-56): create the index with the fixed settings
and mapping when it does not exist, do nothing when it does. -/
def ensure_index (s : EngineState) : EngineState :=
  if s.index.isSome then s
  else { index := some { numberOfShards := 1, numberOfReplicas := 0,
                         mapping := fixedMapping },
         docs := [], refreshes := s.refreshes }

/-- The `seed` list of `seed_docs` (lines 62-68). -/
def seed : List Doc :=
  [{ title := "title1", content := "content1", content_type := "article" },
   { title := "title2", content := "content2", content_type := "news" },
   { title := "title3", content := "content3", content_type := "blog" },
   { title := "title4", content := "content4", content_type := "report" },
   { title := "title5", content := "content5", content_type := "article" }]

/-- The seed documents with the ids `i+1` assigned in the indexing loop
(line 70: `client.index(index=INDEX_NAME, id=i+1, body=doc, ...)`). -/
def seedDocsList : List (Nat × Doc) :=
  seed.enum.map (fun p => (p.1 + 1, p.2))

/-- `seed_docs()` (lines 58-72): when the document count is positive, return
unchanged; otherwise index the five seed documents and issue one refresh. -/
def seed_docs (s : EngineState) : EngineState :=
  if s.docs.length > 0 then s
  else { s with docs := s.docs ++ seedDocsList, refreshes := s.refreshes + 1 }

/-- The index-provisioning part of the `startup` handler (lines 74-78):
`ensure_index()` then `seed_docs()`. -/
def bootstrap (s : EngineState) : EngineState :=
  seed_docs (ensure_index s)

/-- The hit source the engine stores for a document (`_source` restricted to
the requested `["title", "content"]` fields). -/
def docSource (d : Doc) : HitSource :=
  { title := some d.title, content := some d.content }

/-- Modelled from the spec: whether a document matches one query clause.
The engine's full-text relevance matching for `multi_match` is external to
this repository ("delegated to the external engine", spec section 4.2), so it
is a parameter `ft`; a `term` clause is exact match on the keyword field. -/
def matchesClause (ft : String → Doc → Bool) (d : Doc) : Clause → Bool
  | .multiMatch qs _ => ft qs d
  | .term f v => if f = "content_type" then d.content_type = v else false

/-- Modelled from the spec: whether a document matches an engine query.
`match_all` matches every document; a boolean query requires every `must`
clause to match (logical AND, spec section 4.2). -/
def matchesQuery (ft : String → Doc → Bool) (d : Doc) : EngineQuery → Bool
  | .matchAll => true
  | .boolMust must => must.all (matchesClause ft d)

/-- Modelled from the spec: the external engine's search call over a stored
document list — the matching documents, capped at the requested `size`,
as hit sources. -/
def engineSearch (ft : String → Doc → Bool) (docs : List (Nat × Doc))
    (req : SearchRequest) : List HitSource :=
  (((docs.map Prod.snd).filter (fun d => matchesQuery ft d req.query)).take
    req.size).map docSource

/-- `wait_for_opensearch` (lines 27-36), over discrete time: `health t` tells
whether the `client.cluster.health()` call at time `t` observes a successful
response (otherwise it raises and the loop sleeps 2 time units).  `some t`
models `return True` after the successful poll at time `t`; `none` models
`raise RuntimeError("OpenSearch not available")`. -/
def waitLoop (health : Nat → Bool) (timeout : Nat) (t : Nat) : Option Nat :=
  if h : t < timeout then
    if health t then some t else waitLoop health timeout (t + 2)
  else none
termination_by timeout - t
decreasing_by omega

/-- `wait_for_opensearch(timeout_sec=60)` with the default timeout. -/
def wait_for_opensearch (health : Nat → Bool) : Option Nat :=
  waitLoop health 60 0

/-- The `startup` handler (lines 74-78): `none` when `wait_for_opensearch`
raises (the process never starts serving), otherwise the bootstrapped state. -/
def startupHandler (health : Nat → Bool) (s : EngineState) :
    Option EngineState :=
  match wait_for_opensearch health with
  | some _ => some (bootstrap s)
  | none => none

/-! ## Helper lemmas -/

lemma stripChars_eq_rdropWhile (l : List Char) :
    stripChars l = (l.dropWhile isPyWhitespace).rdropWhile isPyWhitespace := rfl

lemma dropWhile_stripChars (l : List Char) :
    (stripChars l).dropWhile isPyWhitespace = stripChars l := by
  rw [stripChars_eq_rdropWhile, List.dropWhile_eq_self_iff]
  intro hl
  have hpre := List.rdropWhile_prefix isPyWhitespace (l.dropWhile isPyWhitespace)
  have hlen : 0 < (l.dropWhile isPyWhitespace).length :=
    lt_of_lt_of_le hl hpre.length_le
  have hhead := List.dropWhile_get_zero_not isPyWhitespace l hlen
  have hg : ((l.dropWhile isPyWhitespace).rdropWhile isPyWhitespace).get ⟨0, hl⟩ =
      (l.dropWhile isPyWhitespace).get ⟨0, hlen⟩ := by
    simpa [List.get_eq_getElem] using List.IsPrefix.getElem hpre hl
  rw [hg]
  exact hhead

lemma stripChars_idem (l : List Char) :
    stripChars (stripChars l) = stripChars l := by
  calc stripChars (stripChars l)
      = (stripChars l).rdropWhile isPyWhitespace := by
        rw [stripChars_eq_rdropWhile (stripChars l), dropWhile_stripChars]
    _ = ((l.dropWhile isPyWhitespace).rdropWhile isPyWhitespace).rdropWhile
          isPyWhitespace := by rw [stripChars_eq_rdropWhile]
    _ = (l.dropWhile isPyWhitespace).rdropWhile isPyWhitespace :=
        List.rdropWhile_idempotent isPyWhitespace (l.dropWhile isPyWhitespace)
    _ = stripChars l := (stripChars_eq_rdropWhile l).symm

/-! ## Claim theorems -/

/-- Claim C10: every entry of the allow-list computed from the
`CONTENT_TYPES` environment variable (split on commas, strip, discard empty
pieces) is non-empty and carries no leading or trailing whitespace
(stripping it again is the identity). -/
theorem parseContentTypes_entries (raw : String) (s : String)
    (hmem : s ∈ parseContentTypes raw) : s ≠ "" ∧ pyStrip s = s := by
  unfold parseContentTypes at hmem
  rw [List.mem_filter] at hmem
  obtain ⟨hmap, hne⟩ := hmem
  rw [List.mem_map] at hmap
  obtain ⟨l, -, rfl⟩ := hmap
  refine ⟨by simpa using hne, ?_⟩
  show (⟨stripChars (stripChars l)⟩ : String) = ⟨stripChars l⟩
  rw [stripChars_idem]

/-- Witness for C10 at the default environment value and entry `article`. -/
theorem parseContentTypes_entries_witness :
    "article" ∈ parseContentTypes defaultContentTypesRaw ∧
    "article" ≠ "" ∧ pyStrip "article" = "article" :=
  ⟨by decide, parseContentTypes_entries defaultContentTypesRaw "article" (by decide)⟩

/-- Claim C1: for every query string `q` and every provided (non-empty)
content-type value outside the allow-list, `do_search` short-circuits:
it returns the empty list, sends no request to the engine, and (being a
total function here) raises no error; hence `api_search` returns `[]`
regardless of `q`. -/
theorem do_search_unknown_content_type
    (engine : SearchRequest → List HitSource) (cts : List String)
    (q : String) (s : String) (hmem : s ∉ cts) (hne : s ≠ "") :
    do_search engine cts q (some s) = ([], 0) ∧
    api_search engine cts q (some s) = [] := by
  have hreq : do_search_request cts q (some s) = none := by
    simp [do_search_request, hne, hmem]
  exact ⟨by simp [do_search, hreq], by simp [api_search, do_search, hreq]⟩

/-- Witness for C1: content type `movie` is not in the default allow-list. -/
theorem do_search_unknown_content_type_witness :
    "movie" ∉ CONTENT_TYPES ∧ ("movie" : String) ≠ "" ∧
    do_search (fun _ => [{ title := some "t", content := some "c" }])
      CONTENT_TYPES "x" (some "movie") = ([], 0) ∧
    api_search (fun _ => [{ title := some "t", content := some "c" }])
      CONTENT_TYPES "x" (some "movie") = [] :=
  ⟨by decide, by decide,
    do_search_unknown_content_type _ CONTENT_TYPES "x" "movie" (by decide) (by decide)⟩

/-- Claim C3: the formatter maps a hit to a record whose title is the hit's
title field (empty if absent) and whose snippet is exactly the first 50
characters of the content field: the snippet is a character prefix of the
content of length `min 50 (content length)`, equals the full content when
that length is at most 50, and is empty when content is absent. -/
theorem formatHit_spec (src : HitSource) :
    (formatHit src).title = src.title.getD "" ∧
    (formatHit src).snippet.data ++ (src.content.getD "").data.drop 50 =
      (src.content.getD "").data ∧
    (formatHit src).snippet.length = min 50 (src.content.getD "").length ∧
    ((src.content.getD "").length ≤ 50 →
      (formatHit src).snippet = src.content.getD "") ∧
    (src.content = none → (formatHit src).snippet = "") := by
  refine ⟨rfl, ?_, ?_, ?_, ?_⟩
  · exact List.take_append_drop 50 (src.content.getD "").data
  · show ((src.content.getD "").data.take 50).length = _
    rw [List.length_take]
    rfl
  · intro h
    apply String.ext
    show (src.content.getD "").data.take 50 = (src.content.getD "").data
    exact List.take_of_length_le h
  · intro h
    rw [formatHit, h]
    rfl

/-- Witness for C3 at a hit with a short content and at a hit with no
content field. -/
theorem formatHit_spec_witness :
    (formatHit { title := some "t", content := some "abcdefghij" }).snippet =
      "abcdefghij" ∧
    (formatHit { title := some "t", content := none }).snippet = "" := by
  have h1 := formatHit_spec { title := some "t", content := some "abcdefghij" }
  have h2 := formatHit_spec { title := some "t", content := none }
  exact ⟨h1.2.2.2.1 (by decide), h2.2.2.2.2 rfl⟩

/-- Claim C2: `seed_docs` inserts the fixed five seed documents followed by
one refresh exactly when the document count is zero, leaves the state
unchanged when the count is nonzero, and running the bootstrap sequence
twice from a fresh engine yields exactly five documents. -/
theorem seed_docs_idempotent (s : EngineState) :
    ((seed_docs s).refreshes = s.refreshes + 1 ↔ s.docs.length = 0) ∧
    (s.docs.length = 0 →
      (seed_docs s).docs = seedDocsList ∧ (seed_docs s).docs.length = 5) ∧
    (s.docs.length ≠ 0 → seed_docs s = s) ∧
    (bootstrap (bootstrap initialState)).docs.length = 5 := by
  refine ⟨?_, ?_, ?_, by decide⟩
  · by_cases h : s.docs.length = 0
    · have hd : s.docs = [] := List.length_eq_zero.mp h
      simp [seed_docs, hd]
    · have hp : 0 < s.docs.length := Nat.pos_of_ne_zero h
      have hid : seed_docs s = s := by simp [seed_docs, hp]
      rw [hid]
      constructor
      · intro hr
        omega
      · intro h0
        exact absurd h0 (by omega)
  · intro h
    have hd : s.docs = [] := List.length_eq_zero.mp h
    have hsd : (seed_docs s).docs = seedDocsList := by simp [seed_docs, hd]
    exact ⟨hsd, by rw [hsd]; decide⟩
  · intro h
    simp [seed_docs, Nat.pos_of_ne_zero h]

/-- Witness for C2: seeding an already-seeded state is the identity, and
seeding the fresh state stores the five seed documents. -/
theorem seed_docs_idempotent_witness :
    seed_docs (seed_docs (ensure_index initialState)) =
      seed_docs (ensure_index initialState) ∧
    (seed_docs (ensure_index initialState)).docs = seedDocsList := by
  have h1 := seed_docs_idempotent (ensure_index initialState)
  have h2 := seed_docs_idempotent (seed_docs (ensure_index initialState))
  exact ⟨h2.2.2.1 (by decide), (h1.2.1 (by decide)).1⟩

/-- Claim C9: `ensure_index` creates the index only when it does not exist
(an existing index is left untouched, and a second run changes nothing),
and the mapping it creates has exactly the three fields `title` (full-text),
`content` (full-text) and `content_type` (keyword). -/
theorem ensure_index_mapping (s : EngineState) :
    (s.index.isSome = true → ensure_index s = s) ∧
    (s.index = none →
      ∃ cfg, (ensure_index s).index = some cfg ∧
        cfg.mapping.length = 3 ∧
        cfg.mapping.lookup "title" = some FieldType.text ∧
        cfg.mapping.lookup "content" = some FieldType.text ∧
        cfg.mapping.lookup "content_type" = some FieldType.keyword ∧
        (∀ p ∈ cfg.mapping,
          p.1 = "title" ∨ p.1 = "content" ∨ p.1 = "content_type")) ∧
    ensure_index (ensure_index s) = ensure_index s := by
  refine ⟨?_, ?_, ?_⟩
  · intro h
    simp [ensure_index, h]
  · intro h
    simp only [ensure_index, h, Option.isSome_none, Bool.false_eq_true,
      if_false]
    exact ⟨_, rfl, by decide, by decide, by decide, by decide, by decide⟩
  · by_cases h : s.index.isSome
    · simp [ensure_index, h]
    · simp [ensure_index, h]

/-- Witness for C9 at the fresh state and at the state after creation. -/
theorem ensure_index_mapping_witness :
    ensure_index (ensure_index initialState) = ensure_index initialState ∧
    ∃ cfg, (ensure_index initialState).index = some cfg ∧
      cfg.mapping.length = 3 := by
  have h1 := ensure_index_mapping initialState
  have h2 := ensure_index_mapping (ensure_index initialState)
  obtain ⟨cfg, hc, hlen, -⟩ := h1.2.1 rfl
  exact ⟨h2.1 (by decide), cfg, hc, hlen⟩

/-- Claim C4: for inputs whose content type is absent or allowed (over any
allow-list without the empty string, as produced by the configuration
parser), the engine request built by `do_search` exists, caps the result
size at 25, contains the full-text clause on `title` and `content` exactly
when `q` is non-empty, contains the exact-match clause on `content_type`
exactly when a content type is provided, is a boolean AND of its clauses
when any clause was added, and is match-all when none was. -/
theorem do_search_query_translation (cts : List String) (q : String)
    (ct : Option String) (hnil : "" ∉ cts)
    (hct : ct = none ∨ ∃ s, ct = some s ∧ s ∈ cts) :
    ∃ req, do_search_request cts q ct = some req ∧
      req.size = 25 ∧
      (Clause.multiMatch q ["title", "content"] ∈ req.query.clauses ↔
        q ≠ "") ∧
      ((∃ s, ct = some s ∧
          Clause.term "content_type" s ∈ req.query.clauses) ↔ ct ≠ none) ∧
      (req.query = EngineQuery.matchAll ↔ (q = "" ∧ ct = none)) ∧
      (req.query.clauses ≠ [] →
        req.query = EngineQuery.boolMust req.query.clauses) := by
  rcases hct with rfl | ⟨s, rfl, hs⟩
  · by_cases hq : q = ""
    · subst hq
      have hreq : do_search_request cts "" none =
          some { query := EngineQuery.matchAll,
                 source := ["title", "content"], size := 25 } := by
        simp [do_search_request, mkQuery]
      refine ⟨_, hreq, rfl, ?_, ?_, ?_, ?_⟩ <;> simp [EngineQuery.clauses]
    · have hreq : do_search_request cts q none =
          some { query := EngineQuery.boolMust
                   [Clause.multiMatch q ["title", "content"]],
                 source := ["title", "content"], size := 25 } := by
        simp [do_search_request, hq, mkQuery]
      refine ⟨_, hreq, rfl, ?_, ?_, ?_, ?_⟩ <;>
        simp [EngineQuery.clauses, hq]
  · have hsne : s ≠ "" := fun h => hnil (h ▸ hs)
    by_cases hq : q = ""
    · subst hq
      have hreq : do_search_request cts "" (some s) =
          some { query := EngineQuery.boolMust [Clause.term "content_type" s],
                 source := ["title", "content"], size := 25 } := by
        simp [do_search_request, hsne, hs, mkQuery]
      refine ⟨_, hreq, rfl, ?_, ?_, ?_, ?_⟩ <;> simp [EngineQuery.clauses]
    · have hreq : do_search_request cts q (some s) =
          some { query := EngineQuery.boolMust
                   [Clause.multiMatch q ["title", "content"],
                    Clause.term "content_type" s],
                 source := ["title", "content"], size := 25 } := by
        simp [do_search_request, hq, hsne, hs, mkQuery]
      refine ⟨_, hreq, rfl, ?_, ?_, ?_, ?_⟩ <;>
        simp [EngineQuery.clauses, hq]

/-- Witness for C4 at `q = "hello"`, content type `news`, default list. -/
theorem do_search_query_translation_witness :
    "" ∉ CONTENT_TYPES ∧
    ∃ req, do_search_request CONTENT_TYPES "hello" (some "news") = some req ∧
      req.size = 25 ∧
      (Clause.multiMatch "hello" ["title", "content"] ∈ req.query.clauses ↔
        ("hello" : String) ≠ "") ∧
      ((∃ s, (some "news" : Option String) = some s ∧
          Clause.term "content_type" s ∈ req.query.clauses) ↔
        (some "news" : Option String) ≠ none) ∧
      (req.query = EngineQuery.matchAll ↔
        (("hello" : String) = "" ∧ (some "news" : Option String) = none)) ∧
      (req.query.clauses ≠ [] →
        req.query = EngineQuery.boolMust req.query.clauses) :=
  ⟨by decide, do_search_query_translation CONTENT_TYPES "hello" (some "news")
    (by decide) (Or.inr ⟨"news", rfl, by decide⟩)⟩

lemma do_search_calls_one (engine : SearchRequest → List HitSource)
    (cts : List String) (q : String) (ct : Option String)
    (h : ct.getD "" = "" ∨ ct.getD "" ∈ cts) :
    (do_search engine cts q ct).2 = 1 := by
  by_cases h0 : ct.getD "" = ""
  · simp [do_search, do_search_request, h0]
  · rcases h with h | h
    · exact absurd h h0
    · simp [do_search, do_search_request, h0, h]

/-- Claim C5: the HTML endpoint renders an empty result list and sends no
query to the engine when both parameters are empty; when at least one is
non-empty, the search is performed (the rendered results are those of
`do_search`, and a query is actually sent whenever the content type is
empty or allowed). -/
theorem home_empty_inputs_no_search (engine : SearchRequest → List HitSource)
    (cts : List String) (q : String) (ct : Option String) :
    ((q = "" ∧ ct.getD "" = "") →
      (home engine cts q ct).1.results = [] ∧ (home engine cts q ct).2 = 0) ∧
    (¬(q = "" ∧ ct.getD "" = "") →
      (home engine cts q ct).1.results = (do_search engine cts q ct).1 ∧
      ((ct.getD "" = "" ∨ ct.getD "" ∈ cts) →
        (home engine cts q ct).2 = 1)) := by
  constructor
  · intro h
    simp [home, h]
  · intro h
    refine ⟨by simp [home, h], ?_⟩
    intro hv
    have hc := do_search_calls_one engine cts q ct hv
    simp [home, h, hc]

/-- Witness for C5: no engine call with empty inputs, one engine call for a
non-empty query, over the seeded model engine. -/
theorem home_empty_inputs_no_search_witness :
    (home (fun _ => [{ title := some "a", content := some "b" }])
      CONTENT_TYPES "" none).1.results = [] ∧
    (home (fun _ => [{ title := some "a", content := some "b" }])
      CONTENT_TYPES "" none).2 = 0 ∧
    (home (fun _ => [{ title := some "a", content := some "b" }])
      CONTENT_TYPES "x" none).2 = 1 := by
  have h1 := home_empty_inputs_no_search
    (fun _ => [{ title := some "a", content := some "b" }]) CONTENT_TYPES "" none
  have h2 := home_empty_inputs_no_search
    (fun _ => [{ title := some "a", content := some "b" }]) CONTENT_TYPES "x" none
  exact ⟨(h1.1 (by decide)).1, (h1.1 (by decide)).2,
    (h2.2 (by decide)).2 (Or.inl rfl)⟩

/-- Claim C6: with both parameters empty, `api_search` still executes a
search: the request sent is the match-all query with size 25, and over the
model engine holding the seeded index the response is the list of all five
documents as title/snippet records — not the empty list, and within the
25-result cap. -/
theorem api_search_empty_params_match_all (ft : String → Doc → Bool)
    (cts : List String) (ct : Option String)
    (hct : ct = none ∨ ct = some "") :
    do_search_request cts "" ct =
      some { query := EngineQuery.matchAll,
             source := ["title", "content"], size := 25 } ∧
    api_search (engineSearch ft (bootstrap initialState).docs) cts "" ct =
      [{ title := "title1", snippet := "content1" },
       { title := "title2", snippet := "content2" },
       { title := "title3", snippet := "content3" },
       { title := "title4", snippet := "content4" },
       { title := "title5", snippet := "content5" }] ∧
    api_search (engineSearch ft (bootstrap initialState).docs) cts "" ct ≠
      [] ∧
    (api_search (engineSearch ft (bootstrap initialState).docs)
      cts "" ct).length ≤ 25 := by
  have hmain : ∀ hr : do_search_request cts "" ct =
      some { query := EngineQuery.matchAll,
             source := ["title", "content"], size := 25 },
      api_search (engineSearch ft (bootstrap initialState).docs) cts "" ct =
        [{ title := "title1", snippet := "content1" },
         { title := "title2", snippet := "content2" },
         { title := "title3", snippet := "content3" },
         { title := "title4", snippet := "content4" },
         { title := "title5", snippet := "content5" }] := by
    intro hr
    simp only [api_search, do_search, hr]
    rfl
  rcases hct with rfl | rfl
  · refine ⟨rfl, hmain rfl, ?_, ?_⟩
    · rw [hmain rfl]
      simp
    · rw [hmain rfl]
      decide
  · refine ⟨rfl, hmain rfl, ?_, ?_⟩
    · rw [hmain rfl]
      simp
    · rw [hmain rfl]
      decide

/-- Witness for C6 with the content-type parameter absent. -/
theorem api_search_empty_params_match_all_witness :
    api_search (engineSearch (fun _ _ => true) (bootstrap initialState).docs)
      CONTENT_TYPES "" none ≠ [] := by
  have h := api_search_empty_params_match_all (fun _ _ => true) CONTENT_TYPES
    none (Or.inl rfl)
  exact h.2.2.1

/-- Counterexample to claim C7 as stated: on the seeded model engine with
both parameters empty, the JSON endpoint returns the five seeded documents
while the HTML endpoint renders an empty result list. -/
theorem api_home_differ_when_both_empty :
    api_search (engineSearch (fun _ _ => true) (bootstrap initialState).docs)
        CONTENT_TYPES "" none ≠
      (home (engineSearch (fun _ _ => true) (bootstrap initialState).docs)
        CONTENT_TYPES "" none).1.results := by
  decide

/-- Claim C7 (amended): for every input pair in which at least one of the
two parameters is non-empty, and the same engine, the JSON endpoint returns
exactly the result list the HTML endpoint renders. -/
theorem api_search_eq_home_results (engine : SearchRequest → List HitSource)
    (cts : List String) (q : String) (ct : Option String)
    (h : ¬(q = "" ∧ ct.getD "" = "")) :
    api_search engine cts q ct = (home engine cts q ct).1.results := by
  simp [api_search, home, h]

/-- Witness for amended C7 at `q = "x"` on the seeded model engine. -/
theorem api_search_eq_home_results_witness :
    ¬(("x" : String) = "" ∧ (none : Option String).getD "" = "") ∧
    api_search (engineSearch (fun _ _ => true) (bootstrap initialState).docs)
        CONTENT_TYPES "x" none =
      (home (engineSearch (fun _ _ => true) (bootstrap initialState).docs)
        CONTENT_TYPES "x" none).1.results :=
  ⟨by decide, api_search_eq_home_results _ CONTENT_TYPES "x" none (by decide)⟩

lemma waitLoop_some_spec (health : Nat → Bool) (timeout : Nat) :
    ∀ n t0, timeout - t0 ≤ n → ∀ t, waitLoop health timeout t0 = some t →
      t0 ≤ t ∧ t < timeout ∧ (t - t0) % 2 = 0 ∧ health t = true ∧
      ∀ u, t0 ≤ u → u < t → (u - t0) % 2 = 0 → health u = false := by
  intro n
  induction n with
  | zero =>
    intro t0 hle t heq
    rw [waitLoop, dif_neg (by omega)] at heq
    exact absurd heq (by simp)
  | succ n ih =>
    intro t0 hle t heq
    rw [waitLoop] at heq
    by_cases h1 : t0 < timeout
    · rw [dif_pos h1] at heq
      by_cases h2 : health t0 = true
      · rw [if_pos h2] at heq
        obtain rfl : t0 = t := Option.some.inj heq
        refine ⟨le_refl _, h1, by omega, h2, ?_⟩
        intro u hu1 hu2 _
        omega
      · rw [if_neg h2] at heq
        obtain ⟨ha, hb, hc, hd, he⟩ := ih (t0 + 2) (by omega) t heq
        refine ⟨by omega, hb, by omega, hd, ?_⟩
        intro u hu1 hu2 hu3
        by_cases hu : u = t0
        · subst hu
          simpa using h2
        · exact he u (by omega) hu2 (by omega)
    · rw [dif_neg h1] at heq
      exact absurd heq (by simp)

lemma waitLoop_none_spec (health : Nat → Bool) (timeout : Nat) :
    ∀ n t0, timeout - t0 ≤ n →
      (waitLoop health timeout t0 = none ↔
        ∀ u, t0 ≤ u → u < timeout → (u - t0) % 2 = 0 → health u = false) := by
  intro n
  induction n with
  | zero =>
    intro t0 hle
    rw [waitLoop, dif_neg (by omega)]
    constructor
    · intro _ u hu1 hu2 _
      omega
    · intro _
      rfl
  | succ n ih =>
    intro t0 hle
    rw [waitLoop]
    by_cases h1 : t0 < timeout
    · rw [dif_pos h1]
      by_cases h2 : health t0 = true
      · rw [if_pos h2]
        constructor
        · intro h
          exact absurd h (by simp)
        · intro hall
          exact absurd (hall t0 le_rfl h1 (by omega)) (by simp [h2])
      · rw [if_neg h2]
        rw [ih (t0 + 2) (by omega)]
        constructor
        · intro hall u hu1 hu2 hu3
          by_cases hu : u = t0
          · subst hu
            simpa using h2
          · exact hall u (by omega) hu2 (by omega)
        · intro hall u hu1 hu2 hu3
          exact hall u (by omega) hu2 (by omega)
    · rw [dif_neg h1]
      constructor
      · intro _ u hu1 hu2 _
        omega
      · intro _
        rfl

/-- Claim C8: the startup wait loop polls engine health at even times
0, 2, 4, ... (a fixed 2-time-unit interval) and returns successfully at the
first poll that observes a successful health response; when no poll before
the 60-time-unit timeout succeeds, it raises (`none`), and the startup
handler then does not bring the process up. -/
theorem wait_for_opensearch_spec (health : Nat → Bool) (s : EngineState) :
    (∀ t, wait_for_opensearch health = some t →
      t < 60 ∧ t % 2 = 0 ∧ health t = true ∧
      ∀ u, u < t → u % 2 = 0 → health u = false) ∧
    (wait_for_opensearch health = none ↔
      ∀ u, u < 60 → u % 2 = 0 → health u = false) ∧
    (wait_for_opensearch health = none → startupHandler health s = none) ∧
    (∀ t, wait_for_opensearch health = some t →
      startupHandler health s = some (bootstrap s)) := by
  refine ⟨?_, ?_, ?_, ?_⟩
  · intro t ht
    obtain ⟨h1, h2, h3, h4, h5⟩ :=
      waitLoop_some_spec health 60 60 0 (by omega) t ht
    exact ⟨h2, by simpa using h3, h4,
      fun u hu he => h5 u (Nat.zero_le u) hu (by simpa using he)⟩
  · have hiff := waitLoop_none_spec health 60 60 0 (by omega)
    rw [wait_for_opensearch, hiff]
    constructor
    · intro h u hu he
      exact h u (Nat.zero_le u) hu (by simpa using he)
    · intro h u _ hu he
      exact h u hu (by simpa using he)
  · intro h
    simp [startupHandler, h]
  · intro t ht
    simp [startupHandler, ht]

/-- Witness for C8: with health never successful the loop raises and the
process does not serve; with health immediately successful it serves. -/
theorem wait_for_opensearch_spec_witness :
    wait_for_opensearch (fun _ => false) = none ∧
    startupHandler (fun _ => false) initialState = none ∧
    startupHandler (fun _ => true) initialState =
      some (bootstrap initialState) := by
  have hspec := wait_for_opensearch_spec (fun _ => false) initialState
  have h1 : wait_for_opensearch (fun _ => false) = none :=
    hspec.2.1.mpr (fun u _ _ => rfl)
  have htrue : wait_for_opensearch (fun _ => true) = some 0 := by
    rw [wait_for_opensearch, waitLoop]
    simp
  exact ⟨h1, hspec.2.2.1 h1,
    (wait_for_opensearch_spec (fun _ => true) initialState).2.2.2 0 htrue⟩

end OpensearchApp
